import Mathlib

/-!
Shallow embedding of the 2D raster-grid spatial index from `raster_grid.py`.

Python floats are modelled as exact rationals (ℚ); Python `int(...)`
conversion is truncation toward zero; Python exceptions are modelled with
`Except`.  The definitions below follow the source line by line, including
the `and` in `locate`'s row-index range check and the toward-zero
truncation in the per-axis index helpers.
-/

/-- The `Point` dataclass: a pair of coordinates. -/
structure Point where
  x : ℚ
  y : ℚ
deriving DecidableEq, Repr

/-- The `RasterGrid.Cell` dataclass: an integer (column, row) address. -/
structure Cell where
  col_index : ℤ
  row_index : ℤ
deriving DecidableEq, Repr

/-- Field reduction for `Cell` literals. -/
theorem Cell.col_index_mk (a b : ℤ) : (Cell.mk a b).col_index = a := rfl

/-- Field reduction for `Cell` literals. -/
theorem Cell.row_index_mk (a b : ℤ) : (Cell.mk a b).row_index = b := rfl

/-- Field reduction for `Point` literals. -/
theorem Point.x_mk (a b : ℚ) : (Point.mk a b).x = a := rfl

/-- Field reduction for `Point` literals. -/
theorem Point.y_mk (a b : ℚ) : (Point.mk a b).y = b := rfl

/-- Exceptions the constructor can raise.  `invalidGridError` is the
error class the specification mandates; `zeroDivisionError` is Python's
built-in division-by-zero exception. -/
inductive PyError where
  | zeroDivisionError
  | invalidGridError
deriving DecidableEq, Repr

/-- The grid record: the fields stored by `RasterGrid.__init__`
(`_lower_left`, `_size`, `_resolution`, and the cached `_dx`). -/
structure RasterGrid where
  lower_left : Point
  size : ℚ × ℚ
  resolution : ℤ × ℤ
  dx : ℚ × ℚ
deriving DecidableEq, Repr

namespace RasterGrid

/-- The field assignments performed by `__init__` when no exception is
raised: `_dx = (size[0]/resolution[0], size[1]/resolution[1])`. -/
def make (ll : Point) (size : ℚ × ℚ) (res : ℤ × ℤ) : RasterGrid :=
  ⟨ll, size, res, (size.1 / (res.1 : ℚ), size.2 / (res.2 : ℚ))⟩

/-- The body of `RasterGrid.__init__` as a fallible computation: Python raises
`ZeroDivisionError` while computing `_dx` when a resolution component is
zero (the tuple is evaluated left to right); otherwise the instance is
built.  No other validation occurs in the source. -/
def init (ll : Point) (size : ℚ × ℚ) (res : ℤ × ℤ) : Except PyError RasterGrid :=
  if res.1 = 0 then .error .zeroDivisionError
  else if res.2 = 0 then .error .zeroDivisionError
  else .ok (make ll size res)

/-- The `number_of_cells` property: `resolution[0]*resolution[1]`. -/
def number_of_cells (g : RasterGrid) : ℤ :=
  g.resolution.1 * g.resolution.2

/-- The `cells` property: the generator
`(Cell(i, j) for i in range(nx) for j in range(ny))`, embedded as the
list it yields (Python `range n` is empty for `n ≤ 0`). -/
def cells (g : RasterGrid) : List Cell :=
  (List.range g.resolution.1.toNat).flatMap fun (i : ℕ) =>
    (List.range g.resolution.2.toNat).map fun (j : ℕ) =>
      ⟨(i : ℤ), (j : ℤ)⟩

/-- The `center` method: the cell centroid
`(lower_left.x + (col+0.5)*dx[0], lower_left.y + (row+0.5)*dx[1])`. -/
def center (g : RasterGrid) (c : Cell) : Point :=
  ⟨g.lower_left.x + ((c.col_index : ℚ) + 1/2) * g.dx.1,
   g.lower_left.y + ((c.row_index : ℚ) + 1/2) * g.dx.2⟩

/-- Python `int(...)` applied to a float/rational: truncation toward
zero (floor for nonnegative arguments, ceiling for negative ones). -/
def pyInt (q : ℚ) : ℤ :=
  if 0 ≤ q then ⌊q⌋ else ⌈q⌉

/-- The `_get_x_index` helper: the three-way boundary test on the x axis. -/
def get_x_index (g : RasterGrid) (p : Point) (tolerance : ℚ) : ℤ :=
  let x_min := g.lower_left.x
  let x_max := g.lower_left.x + g.size.1
  if |p.x - x_min| < tolerance then 0
  else if |p.x - x_max| < tolerance then g.resolution.1 - 1
  else pyInt ((p.x - x_min) / g.dx.1)

/-- The `_get_y_index` helper: the three-way boundary test on the y axis. -/
def get_y_index (g : RasterGrid) (p : Point) (tolerance : ℚ) : ℤ :=
  let y_min := g.lower_left.y
  let y_max := g.lower_left.y + g.size.2
  if |p.y - y_min| < tolerance then 0
  else if |p.y - y_max| < tolerance then g.resolution.2 - 1
  else pyInt ((p.y - y_min) / g.dx.2)

/-- The `locate` method: compute both axis indices with the shared tolerance
`1e-6 * max(dx[0], dx[1])`, reject when the x index is out of range
(`or`), reject when the y index is below zero AND at least `ny`
(`and`, exactly as written in the source), else return the cell. -/
def locate (g : RasterGrid) (p : Point) : Option Cell :=
  let tolerance : ℚ := (1/1000000) * max g.dx.1 g.dx.2
  let ix := g.get_x_index p tolerance
  let iy := g.get_y_index p tolerance
  if ix < 0 ∨ ix ≥ g.resolution.1 then none
  else if iy < 0 ∧ iy ≥ g.resolution.2 then none
  else some ⟨ix, iy⟩

/-- The tolerance value `locate` computes, exposed for statements about
the per-axis helpers. -/
def eps (g : RasterGrid) : ℚ :=
  (1/1000000) * max g.dx.1 g.dx.2

end RasterGrid

/-- C8: for every grid constructed with resolution `(nx, ny)`,
`number_of_cells` returns exactly `nx * ny`. -/
theorem C8_number_of_cells (ll : Point) (size : ℚ × ℚ) (res : ℤ × ℤ)
    (g : RasterGrid) (h : RasterGrid.init ll size res = .ok g) :
    g.number_of_cells = res.1 * res.2 := by
  unfold RasterGrid.init at h
  split_ifs at h
  cases h
  rfl

/-- Witness for C8 at `resolution = (2, 3)`. -/
theorem C8_number_of_cells_witness :
    (RasterGrid.make ⟨0, 0⟩ (1, 1) (2, 3)).number_of_cells = 2 * 3 :=
  C8_number_of_cells ⟨0, 0⟩ (1, 1) (2, 3) _ rfl

/-- C10: constructing with a zero resolution component raises the
division-by-zero error during the cell-width computation (never
`InvalidGridError`), and any other arguments — non-positive sizes and
negative resolutions included — are accepted without validation. -/
theorem C10_no_validation (ll : Point) (size : ℚ × ℚ) (res : ℤ × ℤ) :
    (res.1 = 0 ∨ res.2 = 0 → RasterGrid.init ll size res = .error .zeroDivisionError) ∧
    (res.1 ≠ 0 → res.2 ≠ 0 → RasterGrid.init ll size res = .ok (RasterGrid.make ll size res)) := by
  constructor
  · rintro (h | h) <;> by_cases h1 : res.1 = 0 <;> simp [RasterGrid.init, h, h1]
  · intro h1 h2
    simp [RasterGrid.init, h1, h2]

/-- Witness for C10 at `resolution = (0, 5)` (the error case) and at
`size = (0, 1)`, `resolution = (1, 1)` (the unvalidated case). -/
theorem C10_no_validation_witness :
    RasterGrid.init ⟨0, 0⟩ (1, 1) (0, 5) = .error .zeroDivisionError ∧
    RasterGrid.init ⟨0, 0⟩ (0, 1) (1, 1) = .ok (RasterGrid.make ⟨0, 0⟩ (0, 1) (1, 1)) :=
  ⟨(C10_no_validation ⟨0, 0⟩ (1, 1) (0, 5)).1 (Or.inl rfl),
   (C10_no_validation ⟨0, 0⟩ (0, 1) (1, 1)).2 one_ne_zero one_ne_zero⟩

/-- C4 (divergence record): at the spec's own failure scenario
`RasterGrid(Point(0,0), (1,1), (0,5))` the constructor raises
`ZeroDivisionError`, not the mandated `InvalidGridError`; and with a
non-positive size component `(0, 1)` it performs no validation at all
and silently returns a grid. -/
theorem C4_failing_eval :
    RasterGrid.init ⟨0, 0⟩ (1, 1) (0, 5) = .error .zeroDivisionError ∧
    RasterGrid.init ⟨0, 0⟩ (1, 1) (0, 5) ≠ .error .invalidGridError ∧
    RasterGrid.init ⟨0, 0⟩ (0, 1) (1, 1) = .ok (RasterGrid.make ⟨0, 0⟩ (0, 1) (1, 1)) := by
  refine ⟨rfl, ?_, rfl⟩
  intro h
  simp [RasterGrid.init] at h

/-- C1 (divergence record): on the spec's example grid
(`lower_left=(0,0)`, `size=(2,2)`, `resolution=(2,2)`) the
out-of-domain points `(-0.1, 0.5)` and `(0.5, 2.1)` are NOT rejected:
the first truncates toward zero to column 0 and the second survives the
unsatisfiable `iy < 0 and iy >= ny` row check, so both receive cells. -/
theorem C1_failing_eval :
    (RasterGrid.make ⟨0, 0⟩ (2, 2) (2, 2)).locate ⟨-1/10, 1/2⟩ = some ⟨0, 0⟩ ∧
    (RasterGrid.make ⟨0, 0⟩ (2, 2) (2, 2)).locate ⟨1/2, 21/10⟩ = some ⟨0, 2⟩ := by
  constructor
  · have hc : ⌈(-(1/10) : ℚ)⌉ = 0 := by norm_num
    norm_num [RasterGrid.locate, RasterGrid.get_x_index, RasterGrid.get_y_index,
      RasterGrid.pyInt, RasterGrid.make, abs_eq_max_neg, hc]
  · norm_num [RasterGrid.locate, RasterGrid.get_x_index, RasterGrid.get_y_index,
      RasterGrid.pyInt, RasterGrid.make, abs_eq_max_neg]

/-- C6: `center` returns exactly
`Point(lower_left.x + (col + 0.5)*cell_width, lower_left.y + (row + 0.5)*cell_height)`
for every in-range cell, and on the `(0,0)/(2,2)/(2,2)` grid
`center(Cell(0,0)) = (0.5, 0.5)` and `center(Cell(1,1)) = (1.5, 1.5)`. -/
theorem C6_center (ll : Point) (sx sy : ℚ) (nx ny : ℤ) (c : Cell)
    (h1 : 0 ≤ c.col_index) (h2 : c.col_index < nx)
    (h3 : 0 ≤ c.row_index) (h4 : c.row_index < ny) :
    (RasterGrid.make ll (sx, sy) (nx, ny)).center c =
      ⟨ll.x + ((c.col_index : ℚ) + 1/2) * (sx / (nx : ℚ)),
       ll.y + ((c.row_index : ℚ) + 1/2) * (sy / (ny : ℚ))⟩ ∧
    (RasterGrid.make ⟨0, 0⟩ (2, 2) (2, 2)).center ⟨0, 0⟩ = ⟨1/2, 1/2⟩ ∧
    (RasterGrid.make ⟨0, 0⟩ (2, 2) (2, 2)).center ⟨1, 1⟩ = ⟨3/2, 3/2⟩ := by
  refine ⟨rfl, ?_, ?_⟩ <;> norm_num [RasterGrid.center, RasterGrid.make, Point.mk.injEq]

/-- Witness for C6 at the spec's example grid and `Cell(1, 1)`. -/
theorem C6_center_witness :
    (RasterGrid.make ⟨0, 0⟩ (2, 2) (2, 2)).center ⟨1, 1⟩ =
      ⟨0 + ((1 : ℤ) + 1/2 : ℚ) * ((2 : ℚ) / ((2 : ℤ) : ℚ)),
       0 + ((1 : ℤ) + 1/2 : ℚ) * ((2 : ℚ) / ((2 : ℤ) : ℚ))⟩ :=
  (C6_center ⟨0, 0⟩ 2 2 2 2 ⟨1, 1⟩ (by decide) (by decide) (by decide) (by decide)).1

/-- C9: whenever `locate` returns a cell, its column index lies in
`[0, nx)` — the x-axis range check (`or`) really guards the result. -/
theorem C9_col_in_range (g : RasterGrid) (p : Point) (c : Cell)
    (h : g.locate p = some c) :
    0 ≤ c.col_index ∧ c.col_index < g.resolution.1 := by
  simp only [RasterGrid.locate] at h
  split_ifs at h with h1 h2
  injection h with h
  subst h
  simp only [not_or, not_lt, ge_iff_le, not_le] at h1
  exact ⟨h1.1, h1.2⟩

/-- Witness for C9: the located cell of `(0.5, 0.5)` on the example
grid has its column index inside `[0, 2)`. -/
theorem C9_col_in_range_witness :
    0 ≤ (Cell.mk 0 0).col_index ∧
      (Cell.mk 0 0).col_index < (RasterGrid.make ⟨0, 0⟩ (2, 2) (2, 2)).resolution.1 :=
  C9_col_in_range (RasterGrid.make ⟨0, 0⟩ (2, 2) (2, 2)) ⟨1/2, 1/2⟩ ⟨0, 0⟩ (by
    norm_num [RasterGrid.locate, RasterGrid.get_x_index, RasterGrid.get_y_index,
      RasterGrid.pyInt, RasterGrid.make, abs_eq_max_neg])

/-- C7: for every grid with positive resolution, the `cells`
enumeration has length `number_of_cells`, repeats no `(col, row)` pair,
and its index pairs are exactly the Cartesian product `[0,nx) × [0,ny)`. -/
theorem C7_cells_cover (g : RasterGrid)
    (hnx : 0 < g.resolution.1) (hny : 0 < g.resolution.2) :
    (g.cells.length : ℤ) = g.number_of_cells ∧
    g.cells.Nodup ∧
    (∀ c : Cell, c ∈ g.cells ↔
      0 ≤ c.col_index ∧ c.col_index < g.resolution.1 ∧
      0 ≤ c.row_index ∧ c.row_index < g.resolution.2) := by
  refine ⟨?_, ?_, ?_⟩
  · have h : g.cells.length = g.resolution.1.toNat * g.resolution.2.toNat := by
      simp [RasterGrid.cells, Function.comp_def]
    rw [h, RasterGrid.number_of_cells]
    push_cast
    rw [Int.toNat_of_nonneg hnx.le, Int.toNat_of_nonneg hny.le]
  · simp only [RasterGrid.cells]
    refine List.nodup_flatMap.mpr ⟨fun i _ => ?_, ?_⟩
    · exact (List.nodup_range _).map fun a b h => by simpa using h
    · refine List.Pairwise.imp ?_ (List.pairwise_lt_range _)
      intro a b hab c hc1 hc2
      simp only [List.mem_map, List.mem_range] at hc1 hc2
      obtain ⟨j1, _, rfl⟩ := hc1
      obtain ⟨j2, _, h⟩ := hc2
      simp only [Cell.mk.injEq] at h
      omega
  · intro c
    simp only [RasterGrid.cells, List.mem_flatMap, List.mem_map, List.mem_range]
    constructor
    · rintro ⟨i, hi, j, hj, rfl⟩
      simp only [Cell.col_index_mk, Cell.row_index_mk]
      omega
    · rintro ⟨h1, h2, h3, h4⟩
      refine ⟨c.col_index.toNat, by omega, c.row_index.toNat, by omega, ?_⟩
      cases c
      simp only [Cell.mk.injEq, Cell.col_index_mk, Cell.row_index_mk] at *
      omega

/-- Witness for C7: the example 2×2 grid enumerates
`number_of_cells` cells. -/
theorem C7_cells_cover_witness :
    (((RasterGrid.make ⟨0, 0⟩ (2, 2) (2, 2)).cells.length : ℤ) =
      (RasterGrid.make ⟨0, 0⟩ (2, 2) (2, 2)).number_of_cells) :=
  (C7_cells_cover (RasterGrid.make ⟨0, 0⟩ (2, 2) (2, 2)) (by decide) (by decide)).1

/-- C3 as stated is false: on the grid `lower_left=(0,0)`,
`size=(1, 10^7)`, `resolution=(2, 1)` the tolerance is
`1e-6 * max(1/2, 10^7) = 10`, so the axis value `v = 0` lies within
`eps` of `v_max = 1`; yet the near-`v_min` branch fires first and
assigns index `0`, not `n - 1 = 1`. -/
theorem C3_counterexample :
    |(0 : ℚ) - ((RasterGrid.make ⟨0, 0⟩ (1, 10000000) (2, 1)).lower_left.x +
        (RasterGrid.make ⟨0, 0⟩ (1, 10000000) (2, 1)).size.1)| <
      (RasterGrid.make ⟨0, 0⟩ (1, 10000000) (2, 1)).eps ∧
    (RasterGrid.make ⟨0, 0⟩ (1, 10000000) (2, 1)).get_x_index ⟨0, 0⟩
        ((RasterGrid.make ⟨0, 0⟩ (1, 10000000) (2, 1)).eps) ≠
      (RasterGrid.make ⟨0, 0⟩ (1, 10000000) (2, 1)).resolution.1 - 1 := by
  constructor <;>
    norm_num [RasterGrid.make, RasterGrid.eps, RasterGrid.get_x_index,
      RasterGrid.pyInt, abs_eq_max_neg]

/-- C3 amended: an axis value within `eps` of `v_max` that is NOT also
within `eps` of `v_min` is assigned index `n - 1` (the near-`v_min`
branch takes precedence when the two tolerance bands overlap); in
particular the upper domain corner of the example grid is clamped:
`locate((1,1)) = Cell(1,1)`. -/
theorem C3_upper_band_clamps (g : RasterGrid) (p : Point) (tol : ℚ)
    (hx1 : tol ≤ |p.x - g.lower_left.x|)
    (hx2 : |p.x - (g.lower_left.x + g.size.1)| < tol)
    (hy1 : tol ≤ |p.y - g.lower_left.y|)
    (hy2 : |p.y - (g.lower_left.y + g.size.2)| < tol) :
    g.get_x_index p tol = g.resolution.1 - 1 ∧
    g.get_y_index p tol = g.resolution.2 - 1 ∧
    (RasterGrid.make ⟨0, 0⟩ (2, 2) (2, 2)).locate ⟨1, 1⟩ = some ⟨1, 1⟩ := by
  refine ⟨?_, ?_, ?_⟩
  · simp only [RasterGrid.get_x_index]
    rw [if_neg (not_lt.mpr hx1), if_pos hx2]
  · simp only [RasterGrid.get_y_index]
    rw [if_neg (not_lt.mpr hy1), if_pos hy2]
  · norm_num [RasterGrid.locate, RasterGrid.get_x_index, RasterGrid.get_y_index,
      RasterGrid.pyInt, RasterGrid.make, abs_eq_max_neg]

/-- Witness for the amended C3: the point `(2, 2)` — the upper domain
corner of the example grid — is clamped to the last column. -/
theorem C3_upper_band_clamps_witness :
    (RasterGrid.make ⟨0, 0⟩ (2, 2) (2, 2)).get_x_index ⟨2, 2⟩ (1/1000000) =
      (RasterGrid.make ⟨0, 0⟩ (2, 2) (2, 2)).resolution.1 - 1 :=
  (C3_upper_band_clamps (RasterGrid.make ⟨0, 0⟩ (2, 2) (2, 2)) ⟨2, 2⟩ (1/1000000)
    (by norm_num [RasterGrid.make, abs_eq_max_neg])
    (by norm_num [RasterGrid.make, abs_eq_max_neg])
    (by norm_num [RasterGrid.make, abs_eq_max_neg])
    (by norm_num [RasterGrid.make, abs_eq_max_neg])).1

/-- C5 as stated is false: Python `int(...)` truncates toward zero, not
down.  On the example grid, `v = -0.5` is outside both tolerance bands,
yet the computed x index is `int(-0.5) = 0` while
`floor((v - v_min)/cell_width) = -1`. -/
theorem C5_counterexample :
    (RasterGrid.make ⟨0, 0⟩ (2, 2) (2, 2)).eps ≤
      |(-1/2 : ℚ) - (RasterGrid.make ⟨0, 0⟩ (2, 2) (2, 2)).lower_left.x| ∧
    (RasterGrid.make ⟨0, 0⟩ (2, 2) (2, 2)).eps ≤
      |(-1/2 : ℚ) - ((RasterGrid.make ⟨0, 0⟩ (2, 2) (2, 2)).lower_left.x +
        (RasterGrid.make ⟨0, 0⟩ (2, 2) (2, 2)).size.1)| ∧
    (RasterGrid.make ⟨0, 0⟩ (2, 2) (2, 2)).get_x_index ⟨-1/2, 0⟩
        ((RasterGrid.make ⟨0, 0⟩ (2, 2) (2, 2)).eps) ≠
      ⌊((-1/2 : ℚ) - (RasterGrid.make ⟨0, 0⟩ (2, 2) (2, 2)).lower_left.x) /
        (RasterGrid.make ⟨0, 0⟩ (2, 2) (2, 2)).dx.1⌋ := by
  have hc : ⌈(-(1/2) : ℚ)⌉ = 0 := by norm_num
  have hf : ⌊(-(1/2) : ℚ)⌋ = -1 := by norm_num
  refine ⟨?_, ?_, ?_⟩ <;>
    norm_num [RasterGrid.make, RasterGrid.eps, RasterGrid.get_x_index,
      RasterGrid.pyInt, abs_eq_max_neg, hc, hf]

/-- C5 amended: outside both tolerance bands the per-axis index is the
toward-zero truncation of `(v - v_min)/cell_width_axis`; it coincides
with `floor` whenever `v ≥ v_min` (with positive cell width), but a
point less than one cell width below `v_min` truncates to `0`, not
`-1`. -/
theorem C5_interior_truncates (g : RasterGrid) (p : Point) (tol : ℚ)
    (hx1 : tol ≤ |p.x - g.lower_left.x|)
    (hx2 : tol ≤ |p.x - (g.lower_left.x + g.size.1)|)
    (hy1 : tol ≤ |p.y - g.lower_left.y|)
    (hy2 : tol ≤ |p.y - (g.lower_left.y + g.size.2)|) :
    (g.get_x_index p tol = RasterGrid.pyInt ((p.x - g.lower_left.x) / g.dx.1) ∧
     g.get_y_index p tol = RasterGrid.pyInt ((p.y - g.lower_left.y) / g.dx.2)) ∧
    ((g.lower_left.x ≤ p.x → 0 < g.dx.1 →
        g.get_x_index p tol = ⌊(p.x - g.lower_left.x) / g.dx.1⌋) ∧
     (g.lower_left.y ≤ p.y → 0 < g.dx.2 →
        g.get_y_index p tol = ⌊(p.y - g.lower_left.y) / g.dx.2⌋)) := by
  have hx : g.get_x_index p tol = RasterGrid.pyInt ((p.x - g.lower_left.x) / g.dx.1) := by
    simp only [RasterGrid.get_x_index]
    rw [if_neg (not_lt.mpr hx1), if_neg (not_lt.mpr hx2)]
  have hy : g.get_y_index p tol = RasterGrid.pyInt ((p.y - g.lower_left.y) / g.dx.2) := by
    simp only [RasterGrid.get_y_index]
    rw [if_neg (not_lt.mpr hy1), if_neg (not_lt.mpr hy2)]
  refine ⟨⟨hx, hy⟩, ?_, ?_⟩
  · intro h hdx
    rw [hx]
    simp only [RasterGrid.pyInt]
    rw [if_pos (div_nonneg (sub_nonneg.mpr h) hdx.le)]
  · intro h hdy
    rw [hy]
    simp only [RasterGrid.pyInt]
    rw [if_pos (div_nonneg (sub_nonneg.mpr h) hdy.le)]

/-- Witness for the amended C5: the interior point `(1.5, 0.5)` of the
example grid gets its column by flooring `1.5 / 1`. -/
theorem C5_interior_truncates_witness :
    (RasterGrid.make ⟨0, 0⟩ (2, 2) (2, 2)).get_x_index ⟨3/2, 1/2⟩ (1/1000000) =
      ⌊((3/2 : ℚ) - (RasterGrid.make ⟨0, 0⟩ (2, 2) (2, 2)).lower_left.x) /
        (RasterGrid.make ⟨0, 0⟩ (2, 2) (2, 2)).dx.1⌋ :=
  ((C5_interior_truncates (RasterGrid.make ⟨0, 0⟩ (2, 2) (2, 2)) ⟨3/2, 1/2⟩ (1/1000000)
    (by norm_num [RasterGrid.make, abs_eq_max_neg])
    (by norm_num [RasterGrid.make, abs_eq_max_neg])
    (by norm_num [RasterGrid.make, abs_eq_max_neg])
    (by norm_num [RasterGrid.make, abs_eq_max_neg])).2).1
    (by norm_num [RasterGrid.make]) (by norm_num [RasterGrid.make])

/-- On a grid whose width data is coherent (`size = n * dx`, `dx > 0`)
and whose tolerance is at most half a cell width, the x index of a cell
center is that cell's column. -/
theorem get_x_index_center (g : RasterGrid) (c : Cell) (tol : ℚ)
    (hdx : 0 < g.dx.1) (hsx : g.size.1 = (g.resolution.1 : ℚ) * g.dx.1)
    (htol : tol ≤ g.dx.1 / 2)
    (h0 : 0 ≤ c.col_index) (h1 : c.col_index < g.resolution.1) :
    g.get_x_index (g.center c) tol = c.col_index := by
  have ha : (0 : ℚ) ≤ (c.col_index : ℚ) := by exact_mod_cast h0
  have hb : (c.col_index : ℚ) + 1 ≤ (g.resolution.1 : ℚ) := by exact_mod_cast h1
  simp only [RasterGrid.get_x_index, RasterGrid.center, Point.x_mk]
  have e1 : g.lower_left.x + ((c.col_index : ℚ) + 1/2) * g.dx.1 - g.lower_left.x
      = ((c.col_index : ℚ) + 1/2) * g.dx.1 := by ring
  rw [e1, hsx]
  have e2 : g.lower_left.x + ((c.col_index : ℚ) + 1/2) * g.dx.1 -
      (g.lower_left.x + (g.resolution.1 : ℚ) * g.dx.1)
      = -((((g.resolution.1 : ℚ) - (c.col_index : ℚ)) - 1/2) * g.dx.1) := by ring
  rw [e2, abs_neg]
  rw [abs_of_nonneg (mul_nonneg (by linarith) hdx.le),
    abs_of_nonneg (mul_nonneg (by linarith) hdx.le)]
  rw [if_neg (not_lt.mpr (htol.trans (by nlinarith [mul_nonneg ha hdx.le])))]
  rw [if_neg (not_lt.mpr (htol.trans (by
    nlinarith [mul_nonneg (show (0:ℚ) ≤ (g.resolution.1 : ℚ) - (c.col_index : ℚ) - 1
      by linarith) hdx.le])))]
  rw [mul_div_cancel_right₀ _ hdx.ne']
  simp only [RasterGrid.pyInt]
  rw [if_pos (by linarith : (0:ℚ) ≤ (c.col_index : ℚ) + 1/2), Int.floor_int_add]
  norm_num

/-- The y-axis analogue of `get_x_index_center`. -/
theorem get_y_index_center (g : RasterGrid) (c : Cell) (tol : ℚ)
    (hdy : 0 < g.dx.2) (hsy : g.size.2 = (g.resolution.2 : ℚ) * g.dx.2)
    (htol : tol ≤ g.dx.2 / 2)
    (h2 : 0 ≤ c.row_index) (h3 : c.row_index < g.resolution.2) :
    g.get_y_index (g.center c) tol = c.row_index := by
  have ha : (0 : ℚ) ≤ (c.row_index : ℚ) := by exact_mod_cast h2
  have hb : (c.row_index : ℚ) + 1 ≤ (g.resolution.2 : ℚ) := by exact_mod_cast h3
  simp only [RasterGrid.get_y_index, RasterGrid.center, Point.y_mk]
  have e1 : g.lower_left.y + ((c.row_index : ℚ) + 1/2) * g.dx.2 - g.lower_left.y
      = ((c.row_index : ℚ) + 1/2) * g.dx.2 := by ring
  rw [e1, hsy]
  have e2 : g.lower_left.y + ((c.row_index : ℚ) + 1/2) * g.dx.2 -
      (g.lower_left.y + (g.resolution.2 : ℚ) * g.dx.2)
      = -((((g.resolution.2 : ℚ) - (c.row_index : ℚ)) - 1/2) * g.dx.2) := by ring
  rw [e2, abs_neg]
  rw [abs_of_nonneg (mul_nonneg (by linarith) hdy.le),
    abs_of_nonneg (mul_nonneg (by linarith) hdy.le)]
  rw [if_neg (not_lt.mpr (htol.trans (by nlinarith [mul_nonneg ha hdy.le])))]
  rw [if_neg (not_lt.mpr (htol.trans (by
    nlinarith [mul_nonneg (show (0:ℚ) ≤ (g.resolution.2 : ℚ) - (c.row_index : ℚ) - 1
      by linarith) hdy.le])))]
  rw [mul_div_cancel_right₀ _ hdy.ne']
  simp only [RasterGrid.pyInt]
  rw [if_pos (by linarith : (0:ℚ) ≤ (c.row_index : ℚ) + 1/2), Int.floor_int_add]
  norm_num

/-- C2 as stated is false: on the valid grid `lower_left=(0,0)`,
`size=(1, 2e-7)`, `resolution=(1, 2)` the shared tolerance
`1e-6 * max(1, 1e-7) = 1e-6` exceeds the cell height `1e-7`, so the
center of `Cell(0,1)` (with `y = 1.5e-7`) falls in the near-`y_min`
tolerance band and locates to `Cell(0,0)`. -/
theorem C2_counterexample :
    (⟨0, 1⟩ : Cell) ∈ (RasterGrid.make ⟨0, 0⟩ (1, 1/5000000) (1, 2)).cells ∧
    (RasterGrid.make ⟨0, 0⟩ (1, 1/5000000) (1, 2)).locate
        ((RasterGrid.make ⟨0, 0⟩ (1, 1/5000000) (1, 2)).center ⟨0, 1⟩) =
      some ⟨0, 0⟩ ∧
    Cell.mk 0 0 ≠ Cell.mk 0 1 := by
  refine ⟨by decide, ?_, by decide⟩
  norm_num [RasterGrid.locate, RasterGrid.get_x_index, RasterGrid.get_y_index,
    RasterGrid.pyInt, RasterGrid.make, RasterGrid.center, abs_eq_max_neg]

/-- C2 amended: the round-trip `locate(center(c)) = c` holds for every
cell of the enumeration on grids whose cell widths are positive and
tile the size exactly, provided the shared tolerance
`eps = 1e-6 * max(cell_width, cell_height)` is at most half of EACH
cell width — i.e. unless the cell aspect ratio exceeds `5*10^5`, in
which case the tolerance band of the coarse axis can swallow cell
centers of the fine axis (see the counterexample). -/
theorem C2_roundtrip (g : RasterGrid) (c : Cell)
    (hdx : 0 < g.dx.1) (hdy : 0 < g.dx.2)
    (hsx : g.size.1 = (g.resolution.1 : ℚ) * g.dx.1)
    (hsy : g.size.2 = (g.resolution.2 : ℚ) * g.dx.2)
    (hex : g.eps ≤ g.dx.1 / 2) (hey : g.eps ≤ g.dx.2 / 2)
    (hc : c ∈ g.cells) :
    g.locate (g.center c) = some c := by
  have hmem : 0 ≤ c.col_index ∧ c.col_index < g.resolution.1 ∧
      0 ≤ c.row_index ∧ c.row_index < g.resolution.2 := by
    simp only [RasterGrid.cells, List.mem_flatMap, List.mem_map, List.mem_range] at hc
    obtain ⟨i, hi, j, hj, rfl⟩ := hc
    simp only [Cell.col_index_mk, Cell.row_index_mk]
    omega
  obtain ⟨h0, h1, h2, h3⟩ := hmem
  have hx := get_x_index_center g c g.eps hdx hsx hex h0 h1
  have hy := get_y_index_center g c g.eps hdy hsy hey h2 h3
  simp only [RasterGrid.locate]
  rw [show (1/1000000 : ℚ) * max g.dx.1 g.dx.2 = g.eps from rfl, hx, hy]
  rw [if_neg (by omega : ¬(c.col_index < 0 ∨ c.col_index ≥ g.resolution.1))]
  rw [if_neg (by omega : ¬(c.row_index < 0 ∧ c.row_index ≥ g.resolution.2))]

/-- Witness for the amended C2: on the spec's example grid, the center
of `Cell(1, 0)` locates back to `Cell(1, 0)`. -/
theorem C2_roundtrip_witness :
    (RasterGrid.make ⟨0, 0⟩ (2, 2) (2, 2)).locate
        ((RasterGrid.make ⟨0, 0⟩ (2, 2) (2, 2)).center ⟨1, 0⟩) = some ⟨1, 0⟩ :=
  C2_roundtrip (RasterGrid.make ⟨0, 0⟩ (2, 2) (2, 2)) ⟨1, 0⟩
    (by norm_num [RasterGrid.make])
    (by norm_num [RasterGrid.make])
    (by norm_num [RasterGrid.make])
    (by norm_num [RasterGrid.make])
    (by norm_num [RasterGrid.make, RasterGrid.eps])
    (by norm_num [RasterGrid.make, RasterGrid.eps])
    (by decide)
